import Mathlib

/- Shallow embedding of the Honeypot backend core (src/app.01.py).
   Text is modelled as `List Char`.  The Python substring test (`kw in s`)
   is the executable Boolean `substrB`; `str.lower()` is
   `List.map Char.toLower` (all library patterns are ASCII, so ASCII
   lowercasing is exact on them); `re.findall` for the four concrete
   extraction regexes is compiled, pattern by pattern, into explicit
   left-to-right scanners with the same greedy/backtracking behaviour.
   `list(set(xs))` is modelled as `List.dedup` (Python set order is
   unspecified; only membership and duplicate-freeness matter below,
   except where explicitly noted).  Character classes follow the ASCII
   fragment of Python's `\d`, `\w`, `\s`, which covers every input used
   in the concrete theorems. -/

/-- ASCII fragment of Python regex `\s`. -/
def isSpaceC (c : Char) : Bool :=
  c == ' ' || c == '\t' || c == '\n' || c == '\r' || c == Char.ofNat 11 || c == Char.ofNat 12

/-- ASCII fragment of Python regex `\w` (used for `\b` word boundaries). -/
def isWordChar (c : Char) : Bool :=
  c.isAlphanum || c == '_'

/-- Boolean list-prefix test. -/
def prefixB : List Char → List Char → Bool
  | [], _ => true
  | _ :: _, [] => false
  | p :: ps, t :: ts => p == t && prefixB ps ts

/-- Boolean contiguous-substring test: Python's `pat in text` on strings. -/
def substrB (pat : List Char) : List Char → Bool
  | [] => prefixB pat []
  | t :: ts => prefixB pat (t :: ts) || substrB pat ts

/-- src/app.01.py lines 41-53: the scam keyword list. -/
def SCAM_KEYWORDS : List (List Char) := [
  "urgent".toList, "verify".toList, "suspended".toList, "account blocked".toList, "click here".toList,
  "confirm your".toList, "won".toList, "lottery".toList, "prize".toList, "claim".toList, "refund".toList,
  "bank account".toList, "card details".toList, "cvv".toList, "otp".toList, "one time password".toList,
  "expire".toList, "immediately".toList, "act now".toList, "limited time".toList, "congratulations".toList,
  "tax refund".toList, "government".toList, "irs".toList, "revenue".toList, "penalty".toList,
  "arrest warrant".toList, "legal action".toList, "court".toList, "police".toList, "officer".toList,
  "paytm".toList, "phonepe".toList, "gpay".toList, "upi".toList, "transfer money".toList,
  "update kyc".toList, "kyc pending".toList, "link aadhar".toList, "pan card".toList,
  "covid relief".toList, "stimulus".toList, "beneficiary".toList, "inheritance".toList,
  "nigerian prince".toList, "bitcoin".toList, "investment opportunity".toList,
  "double your money".toList, "guaranteed returns".toList, "risk free".toList]

/-- src/app.01.py lines 55-58. -/
def SAFE_INDICATORS : List (List Char) := [
  "hello".toList, "how are you".toList, "good morning".toList, "good evening".toList,
  "thank you".toList, "thanks".toList, "okay".toList, "yes".toList, "no".toList, "bye".toList]

/-- src/app.01.py line 71. -/
def urgency_patterns : List (List Char) := [
  "urgent".toList, "immediate".toList, "now".toList, "quickly".toList, "asap".toList, "expire".toList]

/-- src/app.01.py line 75. -/
def financial_patterns : List (List Char) := [
  "send money".toList, "transfer".toList, "pay".toList, "payment".toList, "deposit".toList,
  "account number".toList]

/-- src/app.01.py line 79. -/
def info_patterns : List (List Char) := [
  "password".toList, "pin".toList, "otp".toList, "cvv".toList, "card number".toList,
  "social security".toList, "aadhar".toList]

/-- Python's `sum(1 for keyword in pats if keyword in low)`. -/
def countHits (pats : List (List Char)) (low : List Char) : Nat :=
  pats.countP (fun p => substrB p low)

inductive FraudStatus where
  | Safe : FraudStatus
  | Unknown : FraudStatus
  | Fraud : FraudStatus
  deriving DecidableEq

/-- A conversation-history entry (the dicts stored in `conversation_memory`). -/
structure Message where
  sender : List Char
  text : List Char
  timestamp : List Char
  deriving DecidableEq

/-- src/app.01.py lines 60-99: `detect_scam(text, conversation_history)`. -/
def detect_scam (text : List Char) (conversation_history : List Message) : FraudStatus × Nat :=
  let text_lower := text.map Char.toLower
  let scam_matches := countHits SCAM_KEYWORDS text_lower
  let safe_matches := countHits SAFE_INDICATORS text_lower
  let urgency_score := countHits urgency_patterns text_lower
  let financial_score := countHits financial_patterns text_lower
  let info_score := countHits info_patterns text_lower
  let total_scam_indicators := scam_matches + urgency_score + financial_score * 2 + info_score * 3
  if 5 ≤ total_scam_indicators then (FraudStatus.Fraud, min (85 + total_scam_indicators * 2) 99)
  else if 2 ≤ total_scam_indicators then (FraudStatus.Fraud, 60 + total_scam_indicators * 5)
  else if safe_matches > scam_matches ∧ total_scam_indicators = 0 then (FraudStatus.Safe, 80)
  else (FraudStatus.Unknown, 40 + scam_matches * 10)

/-- Number of distinct patterns of `pats` occurring as a substring of `low`
    (the count named by claim C1, with an explicit `dedup` for "distinct"). -/
def distinctHits (pats : List (List Char)) (low : List Char) : Nat :=
  ((pats.filter (fun p => substrB p low)).dedup).length

/-- The tiered decision policy exactly as claim C1 words it. -/
def classifySpec (text : List Char) : FraudStatus × Nat :=
  let low := text.map Char.toLower
  let scamMatches := distinctHits SCAM_KEYWORDS low
  let safeMatches := distinctHits SAFE_INDICATORS low
  let urgencyScore := distinctHits urgency_patterns low
  let financialScore := distinctHits financial_patterns low
  let infoScore := distinctHits info_patterns low
  let total := scamMatches + urgencyScore + 2 * financialScore + 3 * infoScore
  if 5 ≤ total then (FraudStatus.Fraud, min (85 + 2 * total) 99)
  else if 2 ≤ total ∧ total < 5 then (FraudStatus.Fraud, 60 + 5 * total)
  else if total = 0 ∧ safeMatches > scamMatches then (FraudStatus.Safe, 80)
  else (FraudStatus.Unknown, 40 + 10 * scamMatches)

/-- Match regex `\d{n}` (exactly `n` digits) at the front of `s`. -/
def takeDigits : Nat → List Char → Option (List Char)
  | 0, _ => some []
  | _ + 1, [] => none
  | n + 1, c :: rest =>
    if c.isDigit then
      match takeDigits n rest with
      | some ds => some (c :: ds)
      | none => none
    else none

/-- Match regex `[6-9]\d{9}` at the front of `s`. -/
def matchPhoneCore : List Char → Option (List Char)
  | [] => none
  | c :: rest =>
    if '6' ≤ c ∧ c ≤ '9' then
      match takeDigits 9 rest with
      | some ds => some (c :: ds)
      | none => none
    else none

/-- Match regex `(?:\+91[-\s]?)?[6-9]\d{9}` (src/app.01.py line 121) at the
    front of `s`, with the engine's greedy backtracking over the optional
    prefix and the optional separator. -/
def matchPhoneAt (s : List Char) : Option (List Char) :=
  match s with
  | '+' :: '9' :: '1' :: rest =>
    match rest with
    | c :: rest2 =>
      if c == '-' || isSpaceC c then
        match matchPhoneCore rest2 with
        | some m => some ('+' :: '9' :: '1' :: c :: m)
        | none =>
          match matchPhoneCore rest with
          | some m => some ('+' :: '9' :: '1' :: m)
          | none => matchPhoneCore s
      else
        match matchPhoneCore rest with
        | some m => some ('+' :: '9' :: '1' :: m)
        | none => matchPhoneCore s
    | [] => matchPhoneCore s
  | _ => matchPhoneCore s

/-- `re.findall` scanning loop: try the pattern at each position, and after a
    match of length L resume at the position right after the match (Python sets
    `pos += L`; the skip counter walks those L-1 extra characters).  Every
    phone match is non-empty, so the two loops advance identically. -/
def findallPhoneAux : List Char → Nat → List (List Char)
  | [], _ => []
  | _ :: rest, skip + 1 => findallPhoneAux rest skip
  | s@(_ :: rest), 0 =>
    match matchPhoneAt s with
    | some m => m :: findallPhoneAux rest (m.length - 1)
    | none => findallPhoneAux rest 0

/-- `re.findall(r"(?:\+91[-\s]?)?[6-9]\d{9}", text)` (src/app.01.py line 121-122). -/
def findallPhone (text : List Char) : List (List Char) :=
  findallPhoneAux text 0

/-- True when `s` is empty or starts with a non-word character: the trailing
    `\b` of `\b\d{9,18}\b` read after a digit. -/
def noWordStart (s : List Char) : Bool :=
  match s with
  | [] => true
  | c :: _ => !isWordChar c

/-- Match regex `\b\d{9,18}\b` at a position whose preceding character has
    wordness `prev` (`false` at the start of the text).  The greedy `\d{9,18}`
    followed by `\b` can only match the entire maximal digit run (giving back
    a digit would put the boundary between two digits), so the pattern matches
    here exactly when the full run has length 9..18 and is followed by a
    non-word character or the end. -/
def matchBankAt (prev : Bool) (s : List Char) : Option (List Char) :=
  match s with
  | [] => none
  | c :: rest =>
    if !prev && c.isDigit then
      let ds := c :: rest.takeWhile Char.isDigit
      if 9 ≤ ds.length ∧ ds.length ≤ 18 ∧ noWordStart (rest.dropWhile Char.isDigit) = true
      then some ds else none
    else none

/-- Scanning loop of `re.findall(r"\b\d{9,18}\b", text)`, tracking the
    wordness of the previous character for the leading `\b`. -/
def findallBankAux : List Char → Nat → Bool → List (List Char)
  | [], _, _ => []
  | c :: rest, skip + 1, _ => findallBankAux rest skip (isWordChar c)
  | s@(c :: rest), 0, prev =>
    match matchBankAt prev s with
    | some m => m :: findallBankAux rest (m.length - 1) (isWordChar c)
    | none => findallBankAux rest 0 (isWordChar c)

/-- `re.findall(r"\b\d{9,18}\b", text)` (src/app.01.py lines 129-130). -/
def findallBank (text : List Char) : List (List Char) :=
  findallBankAux text 0 false

/-- Characters allowed after `https?://` by the url regex: everything except
    whitespace and the characters of the class in src/app.01.py line 125. -/
def urlChar (c : Char) : Bool :=
  !(isSpaceC c || c == '<' || c == '>' || c == '"' || c == Char.ofNat 123 ||
    c == Char.ofNat 125 || c == '|' || c == '\\' || c == '^' || c == Char.ofNat 96 ||
    c == '[' || c == ']')

/-- Match `://` followed by one or more `urlChar`s (greedy, nothing after it). -/
def urlBody (s : List Char) : Option (List Char) :=
  match s with
  | ':' :: '/' :: '/' :: rest =>
    let body := rest.takeWhile urlChar
    if body.isEmpty then none else some (':' :: '/' :: '/' :: body)
  | _ => none

/-- Match the url regex at the front of `s`, trying the greedy optional `s`
    of `https?` first and backtracking to plain `http`. -/
def matchUrlAt (s : List Char) : Option (List Char) :=
  match s with
  | 'h' :: 't' :: 't' :: 'p' :: rest =>
    match rest with
    | 's' :: rest2 =>
      match urlBody rest2 with
      | some m => some ('h' :: 't' :: 't' :: 'p' :: 's' :: m)
      | none =>
        match urlBody rest with
        | some m => some ('h' :: 't' :: 't' :: 'p' :: m)
        | none => none
    | _ =>
      match urlBody rest with
      | some m => some ('h' :: 't' :: 't' :: 'p' :: m)
      | none => none
  | _ => none

/-- Scanning loop of `re.findall` for the url regex. -/
def findallUrlAux : List Char → Nat → List (List Char)
  | [], _ => []
  | _ :: rest, skip + 1 => findallUrlAux rest skip
  | s@(_ :: rest), 0 =>
    match matchUrlAt s with
    | some m => m :: findallUrlAux rest (m.length - 1)
    | none => findallUrlAux rest 0

/-- `re.findall` for the url pattern of src/app.01.py lines 125-126. -/
def findallUrl (text : List Char) : List (List Char) :=
  findallUrlAux text 0

/-- The character class `[\w\.-]` of the UPI regex. -/
def upiChar (c : Char) : Bool :=
  isWordChar c || c == '.' || c == '-'

/-- Backtracking search for the trailing `\b` of the UPI regex: given the
    second `[\w\.-]+` run reversed and the wordness of the character after it,
    the number of characters the greedy run must give back for the boundary to
    hold (`none` when no amount works). -/
def dropForB : List Char → Bool → Option Nat
  | [], _ => none
  | c :: rest, afterW =>
    if isWordChar c != afterW then some 0
    else
      match dropForB rest (isWordChar c) with
      | some n => some (n + 1)
      | none => none

/-- Match regex `\b[\w\.-]+@[\w\.-]+\b` (src/app.01.py line 116) at a position
    whose previous character has wordness `prevW`.  The two runs are greedy;
    since `@` is not in the class, the first run can never give characters
    back, while the second backtracks only to satisfy the trailing `\b`
    (`dropForB`).  The character ending a successful match is always a word
    character. -/
def matchUpiAt (prevW : Bool) (s : List Char) : Option (List Char) :=
  match s with
  | [] => none
  | c :: _ =>
    if prevW == isWordChar c then none
    else
      let r1 := s.takeWhile upiChar
      if r1.isEmpty then none
      else
        match s.dropWhile upiChar with
        | '@' :: s2 =>
          let r2 := s2.takeWhile upiChar
          match dropForB r2.reverse false with
          | some n => some (r1 ++ '@' :: r2.take (r2.length - n))
          | none => none
        | _ => none

/-- Scanning loop of `re.findall` for the UPI regex, tracking the previous
    character's wordness for the leading `\b`. -/
def findallUpiAux : List Char → Nat → Bool → List (List Char)
  | [], _, _ => []
  | c :: rest, skip + 1, _ => findallUpiAux rest skip (isWordChar c)
  | s@(c :: rest), 0, prevW =>
    match matchUpiAt prevW s with
    | some m => m :: findallUpiAux rest (m.length - 1) (isWordChar c)
    | none => findallUpiAux rest 0 (isWordChar c)

/-- `re.findall(r"\b[\w\.-]+@[\w\.-]+\b", text)` (src/app.01.py lines 116-117). -/
def findallUpi (text : List Char) : List (List Char) :=
  findallUpiAux text 0 false

/-- The payment-handle fragments of src/app.01.py line 118. -/
def upi_bank_handles : List (List Char) := [
  "paytm".toList, "ybl".toList, "okaxis".toList, "oksbi".toList, "axl".toList,
  "airtel".toList, "fbl".toList, "ibl".toList, "upi".toList]

/-- The per-message intelligence bundle (src/app.01.py lines 107-113). -/
structure Intelligence where
  bankAccounts : List (List Char)
  upiIds : List (List Char)
  phishingLinks : List (List Char)
  phoneNumbers : List (List Char)
  suspiciousKeywords : List (List Char)
  deriving DecidableEq

/-- src/app.01.py lines 103-138: `extract_intelligence(text)`.  Python's
    `list(set(xs))` is modelled as `List.dedup`, and `''.join(xs)` as
    `List.flatten`. -/
def extract_intelligence (text : List Char) : Intelligence :=
  let upi_matches := findallUpi text
  let upiIds := upi_matches.filter
    (fun u => upi_bank_handles.any (fun b => substrB b (u.map Char.toLower)))
  let phoneNumbers := (findallPhone text).dedup
  let phishingLinks := (findallUrl text).dedup
  let potential_accounts := findallBank text
  let bankAccounts := potential_accounts.filter
    (fun acc => decide (9 ≤ acc.length) && !substrB acc (List.flatten phoneNumbers))
  let text_lower := text.map Char.toLower
  let suspiciousKeywords := SCAM_KEYWORDS.filter (fun keyword => substrB keyword text_lower)
  ⟨bankAccounts, upiIds, phishingLinks, phoneNumbers, suspiciousKeywords⟩

/-- src/app.01.py lines 308-317: `intel_found` checks exactly four of the five
    bundle fields (suspiciousKeywords is not consulted). -/
def intelFound (intel : Intelligence) : Bool :=
  !intel.upiIds.isEmpty || !intel.bankAccounts.isEmpty ||
  !intel.phishingLinks.isEmpty || !intel.phoneNumbers.isEmpty

/-- src/app.01.py line 331: the notification gate of `analyze` — the GUVI
    callback is sent iff the classification is Fraud and `intel_found`. -/
def notifies (text : List Char) (history : List Message) : Bool :=
  decide ((detect_scam text history).1 = FraudStatus.Fraud) && intelFound (extract_intelligence text)

/-- The apostrophe character (several canned replies contain it). -/
def apos : Char := Char.ofNat 39

/-- src/app.01.py line 225. -/
def account_words : List (List Char) :=
  ["account".toList, "verify".toList, "suspended".toList, "blocked".toList]

/-- src/app.01.py line 229. -/
def otp_words : List (List Char) :=
  ["otp".toList, "password".toList, "pin".toList, "cvv".toList]

/-- src/app.01.py line 233. -/
def money_words : List (List Char) :=
  ["send money".toList, "transfer".toList, "payment".toList, "deposit".toList]

/-- src/app.01.py line 237. -/
def prize_words : List (List Char) :=
  ["won".toList, "prize".toList, "lottery".toList, "congratulations".toList]

/-- src/app.01.py line 241: `'http' in text_lower or 'click' in text_lower`. -/
def link_words : List (List Char) :=
  ["http".toList, "click".toList]

/-- src/app.01.py line 245. -/
def kyc_words : List (List Char) :=
  ["kyc".toList, "aadhar".toList, "pan".toList, "document".toList]

/-- src/app.01.py line 249. -/
def urgency_words : List (List Char) :=
  ["urgent".toList, "immediately".toList, "expire".toList, "limited time".toList]

/-- Python's `any(word in text_lower for word in words)`. -/
def anyWord (words : List (List Char)) (low : List Char) : Bool :=
  words.any (fun w => substrB w low)

def reply_account : List Char :=
  "Oh no, really? My account is blocked? What do I need to do? I".toList ++
    apos :: "m not very good with these things...".toList

def reply_otp : List Char :=
  "You need my OTP? Is that safe? I just got a message... should I share it with you? I".toList ++
    apos :: "m a bit confused.".toList

def reply_money : List Char :=
  "Send money? How much? Where do I send it? Can you explain the process? I".toList ++
    apos :: "ve never done this before.".toList

def reply_prize : List Char :=
  "Really? I won something? That".toList ++
    apos :: "s amazing! What did I win? What do I need to do to claim it?".toList

def reply_link : List Char :=
  "You want me to click a link? I".toList ++
    apos :: "m on my phone right now. Can you send it again? What will happen when I click it?".toList

def reply_kyc : List Char :=
  "Update my KYC? Is this mandatory? What documents do you need? Can I do this later?".toList

def reply_urgency : List Char :=
  "Oh, it".toList ++ apos :: "s urgent? I".toList ++
    apos :: "m a bit busy right now. How much time do I have? What happens if I don".toList ++
    apos :: "t do it immediately?".toList

/-- src/app.01.py lines 253-260. -/
def continuation_responses : List (List Char) := [
  "I see... can you tell me more about this?".toList,
  ("Okay, I".toList ++ apos :: "m listening. What should I do next?".toList),
  ("I".toList ++ apos :: "m not sure I understand. Can you explain again?".toList),
  "Hmm, this sounds important. Give me a moment to process this.".toList,
  "Wait, let me get my reading glasses. Can you repeat that?".toList,
  "I want to help, but I need to understand better. What exactly do you need from me?".toList]

/-- src/app.01.py lines 177-263: the rule-based `generate_ai_reply`.  The
    optional OpenAI branch (lines 186-216) runs only when the environment sets
    OPENAI_API_KEY, whose default is the empty string (line 19); the
    deterministic rule-based path below is the modelled core. -/
def generate_ai_reply (message_text : List Char) (conversation_history : List Message)
    (fraud_status : FraudStatus) : List Char :=
  let text_lower := message_text.map Char.toLower
  if conversation_history.length = 0 then "Hello? Who is this?".toList
  else if anyWord account_words text_lower then reply_account
  else if anyWord otp_words text_lower then reply_otp
  else if anyWord money_words text_lower then reply_money
  else if anyWord prize_words text_lower then reply_prize
  else if anyWord link_words text_lower then reply_link
  else if anyWord kyc_words text_lower then reply_kyc
  else if anyWord urgency_words text_lower then reply_urgency
  else continuation_responses.getD (conversation_history.length % continuation_responses.length) []

/-- The text matches none of the seven reply categories of `generate_ai_reply`. -/
def noCategory (message_text : List Char) : Bool :=
  let low := message_text.map Char.toLower
  !anyWord account_words low && !anyWord otp_words low && !anyWord money_words low &&
  !anyWord prize_words low && !anyWord link_words low && !anyWord kyc_words low &&
  !anyWord urgency_words low

/-- Shape of a raw match of the phone regex `(?:\+91[-\s]?)?[6-9]\d{9}`:
    a digit in [6-9] followed by nine digits (`corePhone`), optionally
    preceded by the literal `+91` and an optional separator. -/
def corePhone (m : List Char) : Bool :=
  match m with
  | c :: rest => ('6' ≤ c && c ≤ '9') && rest.all Char.isDigit && rest.length == 9
  | [] => false

/-- A phone-regex match is a bare 10-digit core, `+91` plus a core, or `+91`,
    one separator and a core. -/
def phoneShape (m : List Char) : Bool :=
  corePhone m ||
  (match m with
   | '+' :: '9' :: '1' :: rest =>
     corePhone rest ||
     (match rest with
      | c :: rest2 => (c == '-' || isSpaceC c) && corePhone rest2
      | [] => false)
   | _ => false)

theorem scam_keywords_nodup : SCAM_KEYWORDS.Nodup := by decide

theorem safe_indicators_nodup : SAFE_INDICATORS.Nodup := by decide

theorem urgency_nodup : urgency_patterns.Nodup := by decide

theorem financial_nodup : financial_patterns.Nodup := by decide

theorem info_nodup : info_patterns.Nodup := by decide

theorem distinctHits_eq_countHits (pats : List (List Char)) (low : List Char)
    (h : pats.Nodup) : distinctHits pats low = countHits pats low := by
  unfold distinctHits countHits
  rw [List.Nodup.dedup (h.filter _), List.countP_eq_length_filter]

/-- Claim C1: for every text and history, `detect_scam` follows the tiered
    decision policy of the spec (counts of distinct matching patterns,
    weighted total, four tiers with the stated confidence formulas). -/
theorem claim_C1 (text : List Char) (history : List Message) :
    detect_scam text history = classifySpec text := by
  simp only [detect_scam, classifySpec,
    distinctHits_eq_countHits SCAM_KEYWORDS _ scam_keywords_nodup,
    distinctHits_eq_countHits SAFE_INDICATORS _ safe_indicators_nodup,
    distinctHits_eq_countHits urgency_patterns _ urgency_nodup,
    distinctHits_eq_countHits financial_patterns _ financial_nodup,
    distinctHits_eq_countHits info_patterns _ info_nodup]
  generalize countHits SCAM_KEYWORDS (text.map Char.toLower) = s
  generalize countHits SAFE_INDICATORS (text.map Char.toLower) = sf
  generalize countHits urgency_patterns (text.map Char.toLower) = u
  generalize countHits financial_patterns (text.map Char.toLower) = f
  generalize countHits info_patterns (text.map Char.toLower) = i
  have ht : s + u + f * 2 + i * 3 = s + u + 2 * f + 3 * i := by ring
  rw [ht]
  generalize s + u + 2 * f + 3 * i = t
  ring_nf
  split_ifs <;> first
    | rfl
    | omega

/-- Claim C7: the confidence returned by `detect_scam` always lies in [0,100]. -/
theorem claim_C7 (text : List Char) (history : List Message) :
    0 ≤ (detect_scam text history).2 ∧ (detect_scam text history).2 ≤ 100 := by
  refine ⟨Nat.zero_le _, ?_⟩
  simp only [detect_scam]
  split_ifs with h1 h2 h3
  · exact le_trans (Nat.min_le_right _ _) (by omega)
  · omega
  · omega
  · omega

/-- Claim C10: the classification is independent of the conversation history:
    `detect_scam` never consults its history argument. -/
theorem claim_C10 (text : List Char) (h1 h2 : List Message) :
    detect_scam text h1 = detect_scam text h2 := rfl

theorem prefixB_append_self (x r : List Char) : prefixB x (x ++ r) = true := by
  induction x with
  | nil => rfl
  | cons c cs ih => simp [prefixB, ih]

theorem substrB_of_prefixB {x t : List Char} (h : prefixB x t = true) : substrB x t = true := by
  cases t with
  | nil => simpa [substrB] using h
  | cons c ts => simp [substrB, h]

theorem substrB_cons {x t : List Char} (c : Char) (h : substrB x t = true) :
    substrB x (c :: t) = true := by
  simp [substrB, h]

theorem substrB_append_left {x t : List Char} (pre : List Char) (h : substrB x t = true) :
    substrB x (pre ++ t) = true := by
  induction pre with
  | nil => simpa using h
  | cons c cs ih => simpa [List.cons_append] using substrB_cons c ih

theorem mem_flatten_substrB {x : List Char} {parts : List (List Char)} (h : x ∈ parts) :
    substrB x (List.flatten parts) = true := by
  induction parts with
  | nil => cases h
  | cons p ps ih =>
    rcases List.mem_cons.mp h with rfl | hmem
    · simpa using substrB_of_prefixB (prefixB_append_self x (List.flatten ps))
    · simpa using substrB_append_left p (ih hmem)

/-- Claim C2 (amended): the notification gate fires iff the classification is
    Fraud and one of the four fields bankAccounts, upiIds, phishingLinks,
    phoneNumbers is non-empty — `suspiciousKeywords` is not consulted. -/
theorem claim_C2_amended (text : List Char) (history : List Message) :
    notifies text history = true ↔
      ((detect_scam text history).1 = FraudStatus.Fraud ∧
        ((extract_intelligence text).upiIds ≠ [] ∨
         (extract_intelligence text).bankAccounts ≠ [] ∨
         (extract_intelligence text).phishingLinks ≠ [] ∨
         (extract_intelligence text).phoneNumbers ≠ [])) := by
  simp only [notifies, intelFound, Bool.and_eq_true, Bool.or_eq_true, Bool.not_eq_true',
    decide_eq_true_eq, List.isEmpty_eq_false, ne_eq, or_assoc]

/-- Claim C2 is false as stated: for the text "urgent otp cvv" the
    classification is Fraud and suspiciousKeywords is non-empty (so the claim
    requires a notification), yet the gate does not fire because the four
    fields it actually checks are all empty. -/
theorem claim_C2_cex :
    notifies ("urgent otp cvv".toList) [] = false ∧
    (detect_scam ("urgent otp cvv".toList) []).1 = FraudStatus.Fraud ∧
    (extract_intelligence ("urgent otp cvv".toList)).suspiciousKeywords ≠ [] := by
  decide

theorem bank_mem_iff (text : List Char) (a : List Char) :
    a ∈ (extract_intelligence text).bankAccounts ↔
      (a ∈ findallBank text ∧ 9 ≤ a.length ∧
        substrB a (List.flatten (extract_intelligence text).phoneNumbers) = false) := by
  simp only [extract_intelligence, List.mem_filter, Bool.and_eq_true, decide_eq_true_eq,
    Bool.not_eq_true']

/-- Claim C3 (amended): a word-bounded digit run of length 9 to 18 appears in
    bankAccounts iff it is not a substring of the concatenation of the
    deduplicated matched phone numbers (the code tests membership in
    `''.join(phoneNumbers)`, not value equality); consequently a string
    matched as a phone number still never appears in the bank-account set. -/
theorem claim_C3_amended (text : List Char) :
    (∀ a, a ∈ (extract_intelligence text).bankAccounts ↔
        (a ∈ findallBank text ∧ 9 ≤ a.length ∧
          substrB a (List.flatten (extract_intelligence text).phoneNumbers) = false)) ∧
    (∀ p, p ∈ (extract_intelligence text).phoneNumbers →
        p ∉ (extract_intelligence text).bankAccounts) := by
  refine ⟨bank_mem_iff text, fun p hp hmem => ?_⟩
  have hfalse := ((bank_mem_iff text p).mp hmem).2.2
  have htrue := mem_flatten_substrB hp
  rw [htrue] at hfalse
  exact Bool.noConfusion hfalse

/-- Claim C3 is false as stated: in "9876543210 and 876543210" the run
    "876543210" is a word-bounded 9-digit run equal to no matched phone
    number, yet it is excluded from bankAccounts (it is a substring of the
    joined phone numbers). -/
theorem claim_C3_cex :
    ("876543210".toList ∈ findallBank ("9876543210 and 876543210".toList)) ∧
    (extract_intelligence ("9876543210 and 876543210".toList)).phoneNumbers =
      ["9876543210".toList] ∧
    ("876543210".toList ≠ "9876543210".toList) ∧
    "876543210".toList ∉
      (extract_intelligence ("9876543210 and 876543210".toList)).bankAccounts := by
  decide

theorem claim_C3_witness :
    ("9876543210".toList ∈ (extract_intelligence ("9876543210".toList)).phoneNumbers) ∧
    "9876543210".toList ∉ (extract_intelligence ("9876543210".toList)).bankAccounts :=
  ⟨by decide, (claim_C3_amended ("9876543210".toList)).2 ("9876543210".toList) (by decide)⟩

/-- Claim C5 is false as stated: on the text "456789012345" (whose only digit
    content is that single word-bounded 12-digit run) the extractor returns a
    non-empty phone set — the phone regex has no word boundaries and matches
    the 10-digit subrun "6789012345" inside the longer run. -/
theorem claim_C5_cex :
    (extract_intelligence ("456789012345".toList)).phoneNumbers ≠ [] := by
  decide

/-- Claim C5 (amended): on "456789012345" the extractor returns
    bankAccounts = ["456789012345"] and phoneNumbers = ["6789012345"]: there
    is no longest-run priority, the phone regex simply matches inside the run,
    while the bank run (not being a substring of the joined phone matches)
    is kept. -/
theorem claim_C5_amended :
    (extract_intelligence ("456789012345".toList)).bankAccounts = ["456789012345".toList] ∧
    (extract_intelligence ("456789012345".toList)).phoneNumbers = ["6789012345".toList] := by
  decide

/-- Claim C6 (amended): phoneNumbers, phishingLinks and suspiciousKeywords are
    duplicate-free; upiIds and bankAccounts are not deduplicated, and
    extraction over a text concatenated with itself can produce artifacts the
    single text lacks. -/
theorem claim_C6_amended (text : List Char) :
    (extract_intelligence text).phoneNumbers.Nodup ∧
    (extract_intelligence text).phishingLinks.Nodup ∧
    (extract_intelligence text).suspiciousKeywords.Nodup :=
  ⟨List.nodup_dedup _, List.nodup_dedup _, List.Nodup.filter _ scam_keywords_nodup⟩

/-- Claim C6 is false as stated: upiIds can contain the same artifact twice,
    and concatenating a text with itself can create a phone match that the
    single text does not have (the match spans the junction). -/
theorem claim_C6_cex :
    (extract_intelligence ("l@paytm l@paytm".toList)).upiIds =
      ["l@paytm".toList, "l@paytm".toList] ∧
    (extract_intelligence ("91234".toList)).phoneNumbers = [] ∧
    (extract_intelligence ("91234".toList ++ "91234".toList)).phoneNumbers =
      ["9123491234".toList] := by
  decide

/-- Claim C8 is false as stated: "urgent" belongs to both the scam-indicator
    set and the urgency set. -/
theorem claim_C8_cex :
    "urgent".toList ∈ SCAM_KEYWORDS ∧ "urgent".toList ∈ urgency_patterns := by
  decide

/-- Claim C8 (amended): the urgency, financial and info sets are pairwise
    disjoint and disjoint from nothing else except SCAM_KEYWORDS, which is
    disjoint from the financial set but shares exactly "urgent" and "expire"
    with the urgency set and exactly "otp" and "cvv" with the info set. -/
theorem claim_C8_amended :
    (∀ x ∈ urgency_patterns, x ∉ financial_patterns) ∧
    (∀ x ∈ urgency_patterns, x ∉ info_patterns) ∧
    (∀ x ∈ financial_patterns, x ∉ info_patterns) ∧
    (∀ x ∈ SCAM_KEYWORDS, x ∉ financial_patterns) ∧
    (∀ x ∈ SCAM_KEYWORDS, x ∈ urgency_patterns → x = "urgent".toList ∨ x = "expire".toList) ∧
    (∀ x ∈ SCAM_KEYWORDS, x ∈ info_patterns → x = "otp".toList ∨ x = "cvv".toList) := by
  decide

theorem claim_C8_witness : "urgent".toList ∉ financial_patterns :=
  claim_C8_amended.1 ("urgent".toList) (by decide)

theorem takeDigits_shape : ∀ (n : Nat) (s ds : List Char), takeDigits n s = some ds →
    ds.length = n ∧ ds.all Char.isDigit = true := by
  intro n
  induction n with
  | zero =>
    intro s ds h
    simp only [takeDigits, Option.some.injEq] at h
    subst h
    simp
  | succ n ih =>
    intro s ds h
    match s with
    | [] => simp [takeDigits] at h
    | c :: rest =>
      simp only [takeDigits] at h
      by_cases hd : c.isDigit
      · rw [if_pos hd] at h
        cases heq : takeDigits n rest with
        | some ds' =>
          rw [heq, Option.some.injEq] at h
          subst h
          obtain ⟨hl, ha⟩ := ih rest ds' heq
          simp [List.all_cons, hd, hl, ha]
        | none => rw [heq] at h; exact Option.noConfusion h
      · rw [if_neg hd] at h; exact Option.noConfusion h

theorem matchPhoneCore_shape : ∀ (s m : List Char), matchPhoneCore s = some m →
    corePhone m = true := by
  intro s m h
  match s with
  | [] => simp [matchPhoneCore] at h
  | c :: rest =>
    simp only [matchPhoneCore] at h
    by_cases hc : '6' ≤ c ∧ c ≤ '9'
    · rw [if_pos hc] at h
      cases heq : takeDigits 9 rest with
      | some ds =>
        rw [heq, Option.some.injEq] at h
        subst h
        obtain ⟨hl, ha⟩ := takeDigits_shape 9 rest ds heq
        simp [corePhone, hc.1, hc.2, ha, hl]
      | none => rw [heq] at h; exact Option.noConfusion h
    · rw [if_neg hc] at h; exact Option.noConfusion h

theorem phoneShape_of_core {m : List Char} (h : corePhone m = true) : phoneShape m = true := by
  simp [phoneShape, h]

theorem matchPhoneAt_shape : ∀ (s m : List Char), matchPhoneAt s = some m →
    phoneShape m = true := by
  intro s m h
  unfold matchPhoneAt at h
  split at h
  · rename_i rest
    split at h
    · rename_i c rest2
      split at h
      · rename_i hsep
        cases h1 : matchPhoneCore rest2 with
        | some m1 =>
          rw [h1, Option.some.injEq] at h
          subst h
          have hc := matchPhoneCore_shape _ _ h1
          simp [phoneShape, hsep, hc]
        | none =>
          rw [h1] at h
          cases h2 : matchPhoneCore (c :: rest2) with
          | some m2 =>
            rw [h2, Option.some.injEq] at h
            subst h
            have hc := matchPhoneCore_shape _ _ h2
            simp [phoneShape, hc]
          | none =>
            rw [h2] at h
            exact phoneShape_of_core (matchPhoneCore_shape _ _ h)
      · cases h2 : matchPhoneCore (c :: rest2) with
        | some m2 =>
          rw [h2, Option.some.injEq] at h
          subst h
          have hc := matchPhoneCore_shape _ _ h2
          simp [phoneShape, hc]
        | none =>
          rw [h2] at h
          exact phoneShape_of_core (matchPhoneCore_shape _ _ h)
    · exact phoneShape_of_core (matchPhoneCore_shape _ _ h)
  · exact phoneShape_of_core (matchPhoneCore_shape _ _ h)

theorem findallPhoneAux_shape : ∀ (s : List Char) (skip : Nat) (m : List Char),
    m ∈ findallPhoneAux s skip → phoneShape m = true := by
  intro s
  induction s with
  | nil => intro skip m hm; simp [findallPhoneAux] at hm
  | cons c rest ih =>
    intro skip m hm
    cases skip with
    | succ k => exact ih k m (by simpa [findallPhoneAux] using hm)
    | zero =>
      cases heq : matchPhoneAt (c :: rest) with
      | some mm =>
        rw [findallPhoneAux, heq] at hm
        rcases List.mem_cons.mp hm with rfl | hmem
        · exact matchPhoneAt_shape _ _ heq
        · exact ih _ m hmem
      | none =>
        rw [findallPhoneAux, heq] at hm
        exact ih 0 m hm

/-- Claim C4 (amended): every element of phoneNumbers is a raw match of the
    phone regex — a 10-digit run starting in [6-9], possibly still carrying
    the `+91` prefix and an optional `-` or whitespace separator; no
    digits-only normalization is applied before deduplication. -/
theorem claim_C4_amended (text : List Char) (m : List Char)
    (h : m ∈ (extract_intelligence text).phoneNumbers) : phoneShape m = true := by
  have hm : m ∈ findallPhone text := by
    have : m ∈ (findallPhone text).dedup := h
    exact List.mem_dedup.mp this
  exact findallPhoneAux_shape text 0 m hm

/-- Claim C4 is false as stated: for the text "+919876543210" the stored
    phone number is the raw 13-character match "+919876543210", not a
    normalized 10-digit string. -/
theorem claim_C4_cex :
    (extract_intelligence ("+919876543210".toList)).phoneNumbers = ["+919876543210".toList] ∧
    ¬(("+919876543210".toList).length = 10 ∧
      ("+919876543210".toList).all Char.isDigit = true) := by
  decide

theorem claim_C4_witness :
    ("+91 9876543210".toList ∈ (extract_intelligence ("+91 9876543210".toList)).phoneNumbers) ∧
    phoneShape ("+91 9876543210".toList) = true :=
  ⟨by decide, claim_C4_amended ("+91 9876543210".toList) ("+91 9876543210".toList) (by decide)⟩

/-- Claim C9 (amended): for a text matching no reply category and histories of
    positive length k and k + n*6 (6 is the length of the generic reply list),
    `generate_ai_reply` returns the same reply; positivity is needed because
    an empty history short-circuits to the fixed opening reply. -/
theorem claim_C9_amended (text : List Char) (h1 h2 : List Message) (fs : FraudStatus) (n : Nat)
    (hnc : noCategory text = true) (hk : 1 ≤ h1.length)
    (hlen : h2.length = h1.length + n * 6) :
    generate_ai_reply text h1 fs = generate_ai_reply text h2 fs := by
  simp only [noCategory, Bool.and_eq_true, Bool.not_eq_true'] at hnc
  obtain ⟨⟨⟨⟨⟨⟨ha, ho⟩, hm⟩, hp⟩, hl⟩, hky⟩, hu⟩ := hnc
  have h10 : ¬h1.length = 0 := by omega
  have h20 : ¬h2.length = 0 := by omega
  simp only [generate_ai_reply, ha, ho, hm, hp, hl, hky, hu, h10, h20, if_false,
    Bool.false_eq_true]
  have hmod : h2.length % continuation_responses.length =
      h1.length % continuation_responses.length := by
    have h6 : continuation_responses.length = 6 := by rfl
    rw [h6]
    omega
  rw [hmod]

/-- Claim C9 is false as stated: it quantifies over all k, but for k = 0 and
    n = 1 the empty history gets the fixed opening reply while the length-6
    history gets a rotation reply, on the same category-free text "zz". -/
theorem claim_C9_cex :
    noCategory ("zz".toList) = true ∧
    generate_ai_reply ("zz".toList) [] FraudStatus.Unknown ≠
      generate_ai_reply ("zz".toList) (List.replicate 6 ⟨[], [], []⟩) FraudStatus.Unknown := by
  decide

theorem claim_C9_witness :
    noCategory ("zz".toList) = true ∧
    generate_ai_reply ("zz".toList) [⟨[], [], []⟩] FraudStatus.Unknown =
      generate_ai_reply ("zz".toList) (List.replicate 7 ⟨[], [], []⟩) FraudStatus.Unknown :=
  ⟨by decide, claim_C9_amended ("zz".toList) [⟨[], [], []⟩] (List.replicate 7 ⟨[], [], []⟩)
    FraudStatus.Unknown 1 (by decide) (by decide) (by decide)⟩
